import Mathlib

/-!
Verification development for the OWASP project compliance checker
(src/compliance_checker.py, class OWASPComplianceChecker).

Shallow embedding conventions:
- The GitHub API client, the HTTP fetcher and the HTML text extractor are
  external collaborators.  They are modelled by the structures RepoFacts
  (the facts a resolved repository supplies) and Env (the resolve and
  fetch calls).  Per-rule recoverable failures (a missing file, an
  unreadable README, a failing commit listing) are modelled by Option
  fields, exactly following which try/except blocks the source has.
- Python integers are Nat here: every points argument in the source is
  the literal 1 or 5, and all counters are non negative.
- The final percentage is computed in Rat.  Python round(x, 2) rounds
  half to even; pyRound2 rounds half up.  The two agree unless x*100 is
  exactly half integral, which never happens for the values this program
  produces (score / 100 * 100 is an integer).
- Date handling: the source only ever asks whether a date is present
  (updated_at, pushed_at), formats it into a details string, or compares
  pushed_at with now minus 365 days.  The formatted strings are carried
  verbatim in RepoFacts and the clock comparison is the boolean fact
  pushed_within_last_year.
-/

/-- One check record, as appended by _add_check (lines 127-134 of the
source): name, passed, points awarded, max_points, details, how_to_fix. -/
structure Check where
  name : String
  passed : Bool
  points : Nat
  max_points : Nat
  details : String
  how_to_fix : String
deriving DecidableEq, Repr

/-- One category entry of results["categories"]: the ordered check list
plus the running score and max_score (lines 115-120 of the source). -/
structure CategoryResult where
  checks : List Check
  score : Nat
  max_score : Nat
deriving DecidableEq, Repr

/-- The results dictionary (lines 39-45): categories is an insertion
ordered mapping, error and note are the dynamically added keys. -/
structure Report where
  url : String
  score : Nat
  max_score : Nat
  percentage : Rat
  categories : List (String × CategoryResult)
  error : Option String
  note : Option String
deriving DecidableEq, Repr

/-- The mutable checker state: self.max_score, self.current_score and
self.results (the github client and token live in Env). -/
structure CheckerState where
  max_score : Nat
  current_score : Nat
  results : Report
deriving DecidableEq, Repr

/-- A root directory entry as returned by repo.get_contents(""):
its name, whether it is a directory, and its decoded text content. -/
structure RootEntry where
  name : String
  isDir : Bool
  content : String
deriving DecidableEq, Repr

/-- The facts the GitHub adapter supplies about one resolved repository.
Option encodes the calls the source wraps in try/except or tests against
None; contents_paths is the set of paths for which repo.get_contents
succeeds (the source uses that one call for both file and directory
existence probes); updated_at and pushed_at carry the already formatted
date strings the source interpolates into details. -/
structure RepoFacts where
  readme : Option String
  license : Option String
  open_issues_count : Nat
  updated_at : Option String
  recent_commits : Option Nat
  contents_paths : List String
  has_wiki : Bool
  root_contents : Option (List RootEntry)
  releases_count : Nat
  tags_count : Nat
  milestones_count : Nat
  collaborators_count : Nat
  has_discussions : Bool
  pushed_at : Option String
  pushed_within_last_year : Bool
deriving Repr

/-- Outcome of self.github_client.get_repo (lines 76, 90-100): success,
a GithubException carrying its status, or any other exception carrying
its type name and message. -/
inductive Resolution where
  | ok (repo : RepoFacts)
  | githubError (status : Nat)
  | otherError (ename emsg : String)

/-- The external world: the GitHub resolve call and the website fetch
(requests.get followed by BeautifulSoup get_text; an error carries
str(e)). -/
structure Env where
  resolve : String → String → Resolution
  fetchSite : String → Except String String

/-- The components of urlparse(repo_url) the source reads: netloc and
path.  urlparse itself is the Python standard library, an external
collaborator; theorems quantify over its output. -/
structure ParsedUrl where
  netloc : String
  path : String
deriving DecidableEq, Repr

/-! ### Python string primitives used by the source -/

/-- Substring occurrence on character lists: pat occurs somewhere in the
second list. -/
def subListChar : List Char → List Char → Bool
  | pat, [] => pat.isEmpty
  | pat, c :: rest => pat.isPrefixOf (c :: rest) || subListChar pat rest

/-- Python membership test: sub in s. -/
def pyIn (sub s : String) : Bool := subListChar sub.data s.data

/-- Python str(bool) as interpolated by f-strings: True or False. -/
def pyBool (b : Bool) : String := if b then "True" else "False"

/-- Python s.lower() restricted to ASCII, which is all the source ever
lowercases (the core String.toLower is extensionally the same here but
does not reduce in the kernel). -/
def pyLower (s : String) : String := ⟨s.data.map Char.toLower⟩

/-- Python s.split(sep) for a single-character separator, on character
lists; an empty input yields one empty field, as in Python. -/
def splitCharAux (sep : Char) : List Char → List String
  | [] => [""]
  | c :: rest =>
    let r := splitCharAux sep rest
    if c == sep then "" :: r
    else
      match r with
      | [] => [⟨[c]⟩]
      | s :: t => ⟨c :: s.data⟩ :: t

/-- Python s.split("/") as used on line 54. -/
def pySplitSlash (s : String) : List String := splitCharAux '/' s.data

/-- Python s.strip("/"): drop leading and trailing slash characters. -/
def stripSlashes (s : String) : String :=
  ⟨((s.data.dropWhile (fun c => c == '/')).reverse.dropWhile (fun c => c == '/')).reverse⟩

/-- Python round(x, 2) as used on line 64.  Round half up at the second
decimal; the source never produces an exact half (see file header). -/
def pyRound2 (x : Rat) : Rat := ((Int.floor (x * 100 + 1 / 2) : Int) : Rat) / 100

/-! ### _add_check (source lines 102-134) -/

/-- The check record built on lines 127-134: points is points if passed
else 0, how_to_fix is kept only when the check failed. -/
def newCheckOf (name : String) (passed : Bool) (points : Nat)
    (details how_to_fix : String) : Check :=
  ⟨name, passed, if passed then points else 0, points, details,
    if passed then "" else how_to_fix⟩

/-- Net effect of lines 122-134 on the one category entry being updated:
score grows by points iff passed, max_score always grows by points, the
record is appended. -/
def catAppend (cat : CategoryResult) (newCheck : Check) (passed : Bool)
    (points : Nat) : CategoryResult :=
  ⟨cat.checks ++ [newCheck], cat.score + (if passed then points else 0),
    cat.max_score + points⟩

/-- Update of the single dict entry results["categories"][category]
(Python dicts have unique keys, so updating the first match is the
faithful assoc-list rendering of the dict mutation). -/
def updateCat (cats : List (String × CategoryResult)) (category : String)
    (newCheck : Check) (passed : Bool) (points : Nat) :
    List (String × CategoryResult) :=
  match cats with
  | [] => []
  | p :: rest =>
    if p.1 == category then (p.1, catAppend p.2 newCheck passed points) :: rest
    else p :: updateCat rest category newCheck passed points

/-- The fresh category entry inserted on lines 115-120. -/
def emptyCat : CategoryResult := ⟨[], 0, 0⟩

/-- Method _add_check (lines 102-134).  In the source points, details and
how_to_fix have defaults 1, "" and ""; call sites here always pass them
explicitly. -/
def _add_check (st : CheckerState) (category name : String) (passed : Bool)
    (points : Nat) (details how_to_fix : String) : CheckerState :=
  let cats0 := st.results.categories
  let cats1 :=
    if (cats0.find? (fun p => p.1 == category)).isSome then cats0
    else cats0 ++ [(category, emptyCat)]
  let nc := newCheckOf name passed points details how_to_fix
  { st with
      current_score := st.current_score + (if passed then points else 0),
      results := { st.results with categories := updateCat cats1 category nc passed points } }

/-- Arguments of one _add_check call. -/
structure CheckArgs where
  category : String
  name : String
  passed : Bool
  points : Nat
  details : String
  how_to_fix : String

/-- Run a sequence of _add_check calls in order. -/
def runChecks (st : CheckerState) (l : List CheckArgs) : CheckerState :=
  l.foldl (fun s a => _add_check s a.category a.name a.passed a.points a.details a.how_to_fix) st

/-! ### Helper probes (source lines 656-697) -/

/-- Method _check_file_exists (lines 658-664): repo.get_contents(filepath)
succeeds. -/
def _check_file_exists (repo : RepoFacts) (filepath : String) : Bool :=
  repo.contents_paths.contains filepath

/-- Method _check_directory_exists (lines 666-672): same get_contents probe. -/
def _check_directory_exists (repo : RepoFacts) (dirpath : String) : Bool :=
  repo.contents_paths.contains dirpath

/-- Method _check_code_comments (lines 674-687): among the first five root
entries, some code file whose text has a comment marker. -/
def _check_code_comments (repo : RepoFacts) : Bool :=
  match repo.root_contents with
  | none => false
  | some contents =>
    (contents.take 5).any (fun item =>
      !item.isDir &&
      ([".py", ".js", ".java", ".go", ".rs"].any (fun ext => ext.data.reverse.isPrefixOf item.name.data.reverse)) &&
      (pyIn "#" item.content || pyIn "//" item.content || pyIn "/*" item.content))

/-- Method _check_no_secrets (lines 689-697): the sensitive_patterns list is
built and never used; the try branch returns True and the except branch
returns True, so the probe is constantly true. -/
def _check_no_secrets (_repo : RepoFacts) : Bool := true

/-! ### The rule catalog

Each _check_<category> method of the source is a straight-line sequence
of _add_check calls whose arguments depend only on the repository facts.
It is rendered here as the list of those argument tuples, in source
order, folded through _add_check by runChecks. -/

/-- Method _check_general_compliance (lines 136-227). -/
def general_compliance_checks (repo : RepoFacts) (owner : String) : List CheckArgs :=
  let category := "General Compliance & Governance"
  (match repo.readme with
   | some readme_text =>
     let readme_content := pyLower readme_text
     let has_goal := ["goal", "purpose", "about", "overview", "description"].any
       (fun keyword => pyIn keyword readme_content)
     [⟨category, "Clearly defined project goal and scope", has_goal, 1,
       "Checked README for keywords: goal, purpose, about, overview, description",
       "Add a clear project description in your README.md file. Include sections like \x27## About\x27, \x27## Purpose\x27, or \x27## Project Goal\x27 to explain what your project does."⟩]
   | none =>
     [⟨category, "Clearly defined project goal and scope", false, 1,
       "README.md file not found or could not be read",
       "Create a README.md file in the root of your repository with a clear project description and goals."⟩])
  ++ [⟨category, "Open-source license file present", repo.license.isSome, 1,
       "License: " ++ (match repo.license with | some n => n | none => "Not found"),
       "Add a LICENSE file to your repository. Popular choices include MIT, Apache 2.0, or GPL. Use GitHub\x27s \x27Add file > Create new file > LICENSE\x27 wizard to add one."⟩,
      ⟨category, "README file provides project overview", repo.readme.isSome, 1,
       "Checked for README.md, README.rst, or README.txt in repository root",
       "Create a README.md file in the root directory with project overview, installation instructions, and usage examples."⟩,
      ⟨category, "Under OWASP organization", pyLower owner == "owasp", 1,
       "Repository owner: " ++ owner,
       "This check verifies if the repository is under the OWASP GitHub organization. Consider contributing to OWASP or following OWASP guidelines even if not under OWASP org."⟩,
      ⟨category, "Contribution guidelines (CONTRIBUTING.md)",
       _check_file_exists repo "CONTRIBUTING.md", 1,
       "Checked for CONTRIBUTING.md file in repository root",
       "Create a CONTRIBUTING.md file that explains how others can contribute to your project. Include guidelines for submitting issues, pull requests, and code style standards."⟩,
      ⟨category, "Issue tracker is active", repo.updated_at.isSome, 1,
       "Open issues: " ++ toString repo.open_issues_count ++ ", Last updated: " ++
         (match repo.updated_at with | some d => d | none => "Unknown"),
       "Enable the Issues feature in your repository settings and actively respond to and manage issues."⟩]
  ++ (match repo.recent_commits with
      | some n =>
        [⟨category, "Active maintainers with recent commits", decide (0 < n), 1,
          "Found " ++ toString n ++ " recent commits",
          "Ensure regular commits to show active maintenance. If the project is complete, add a note about its maintenance status in the README."⟩]
      | none =>
        [⟨category, "Active maintainers with recent commits", false, 1,
          "Could not fetch commit history",
          "Make sure the repository has commits and is accessible. Regular commits demonstrate active maintenance."⟩])
  ++ [⟨category, "Code of Conduct present", _check_file_exists repo "CODE_OF_CONDUCT.md", 1,
       "Checked for CODE_OF_CONDUCT.md file in repository root",
       "Add a CODE_OF_CONDUCT.md file to set expectations for community behavior. GitHub provides a template under \x27Insights > Community > Code of conduct\x27."⟩,
      ⟨category, "Project roadmap or milestones documented",
       _check_file_exists repo "ROADMAP.md" || decide (0 < repo.milestones_count), 1,
       "Checked for ROADMAP.md file and GitHub milestones (found " ++
         toString repo.milestones_count ++ " milestones)",
       "Create a ROADMAP.md file or use GitHub Milestones (under \x27Issues\x27 tab) to document planned features and project direction."⟩,
      ⟨category, "Well-governed with active maintainers",
       decide (0 < repo.collaborators_count), 1,
       "Collaborators: " ++ toString repo.collaborators_count,
       "Add collaborators to your repository through Settings > Collaborators. Having multiple maintainers ensures better project governance."⟩]

/-- Method _check_documentation (lines 229-309). -/
def documentation_checks (repo : RepoFacts) : List CheckArgs :=
  let category := "Documentation & Usability"
  (match repo.readme with
   | some readme_text =>
     let readme_content := pyLower readme_text
     let has_installation := ["install", "setup", "getting started", "quick start"].any
       (fun keyword => pyIn keyword readme_content)
     let has_usage := ["usage", "example", "how to use", "tutorial"].any
       (fun keyword => pyIn keyword readme_content)
     [⟨category, "Installation guide in README", has_installation, 1,
       "Searched README for keywords: install, setup, getting started, quick start",
       "Add an installation section to your README.md. Include step-by-step instructions for setting up the project (e.g., ## Installation, ## Setup, or ## Getting Started)."⟩,
      ⟨category, "Usage examples provided", has_usage, 1,
       "Searched README for keywords: usage, example, how to use, tutorial",
       "Add usage examples to your README.md. Include code snippets showing how to use your project (e.g., ## Usage, ## Examples, or ## Quick Start)."⟩]
   | none =>
     [⟨category, "Installation guide in README", false, 1,
       "Could not read README file",
       "Create a README.md file with an installation section containing setup instructions."⟩,
      ⟨category, "Usage examples provided", false, 1,
       "Could not read README file",
       "Create a README.md file with usage examples and code snippets."⟩])
  ++ [⟨category, "Wiki or docs/ directory",
       repo.has_wiki || _check_directory_exists repo "docs", 1,
       "Wiki enabled: " ++ pyBool repo.has_wiki ++ ", docs/ directory exists: " ++
         pyBool (_check_directory_exists repo "docs"),
       "Enable the Wiki feature in repository Settings, or create a \x27docs/\x27 directory with detailed documentation files."⟩,
      ⟨category, "API documentation available",
       _check_file_exists repo "swagger.yaml" || _check_file_exists repo "openapi.yaml" ||
         _check_directory_exists repo "api-docs", 1,
       "Checked for swagger.yaml, openapi.yaml, or api-docs/ directory",
       "If your project has an API, document it using OpenAPI/Swagger. Create a swagger.yaml or openapi.yaml file, or add API documentation in an api-docs/ directory."⟩,
      ⟨category, "Inline code comments present", _check_code_comments repo, 1,
       "Checked sample source files for comment presence",
       "Add meaningful comments to your code to explain complex logic. Use docstrings for functions/classes and inline comments for non-obvious code."⟩,
      ⟨category, "Scripts and configuration documented",
       _check_file_exists repo "scripts/README.md", 1,
       "Checked for scripts/README.md file",
       "If you have a scripts/ directory, create a scripts/README.md file explaining what each script does and how to use them."⟩,
      ⟨category, "FAQ or troubleshooting guide",
       _check_file_exists repo "FAQ.md" || _check_file_exists repo "TROUBLESHOOTING.md", 1,
       "Checked for FAQ.md or TROUBLESHOOTING.md files",
       "Create a FAQ.md or TROUBLESHOOTING.md file to help users solve common problems. Document frequently asked questions and their solutions."⟩,
      ⟨category, "Well-defined error messages", true, 1,
       "Manual review recommended - automated check not possible",
       "Ensure your code provides clear, actionable error messages. Include what went wrong and how to fix it."⟩,
      ⟨category, "Clear versioning strategy",
       decide (0 < repo.releases_count) || decide (0 < repo.tags_count), 1,
       "Releases: " ++ toString repo.releases_count ++ ", Tags: " ++ toString repo.tags_count,
       "Create releases or tags to track versions. Use semantic versioning (e.g., v1.0.0). Go to \x27Releases\x27 on GitHub and click \x27Create a new release\x27."⟩,
      ⟨category, "CHANGELOG maintained", _check_file_exists repo "CHANGELOG.md", 1,
       "Checked for CHANGELOG.md file in repository root",
       "Create a CHANGELOG.md file to document all notable changes. Use the format from https://keepachangelog.com/"⟩]

/-- The linter configuration files probed on lines 316-317. -/
def linter_files : List String :=
  [".eslintrc", ".pylintrc", ".rubocop.yml", "tslint.json", ".editorconfig", "phpcs.xml", ".prettierrc"]

/-- Method _check_code_quality (lines 311-369). -/
def code_quality_checks (repo : RepoFacts) : List CheckArgs :=
  let category := "Code Quality & Best Practices"
  let has_linter := linter_files.any (fun f => _check_file_exists repo f)
  [⟨category, "Code follows style guide", has_linter, 1,
    "Checked for linter config files: " ++ String.intercalate ", " linter_files,
    "Add a linter configuration file for your language (e.g., .eslintrc for JavaScript, .pylintrc for Python, .rubocop.yml for Ruby)."⟩,
   ⟨category, "Uses linters", has_linter, 1,
    "Checked for linter config files: " ++ String.intercalate ", " linter_files,
    "Configure and use a linter for your project. Add the config file and include linting in your CI/CD pipeline."⟩]
  ++ (match repo.root_contents with
      | some contents =>
        let num_dirs := (contents.filter (fun item => item.isDir)).length
        [⟨category, "Code is modular and maintainable", decide (2 ≤ num_dirs), 1,
          "Found " ++ toString num_dirs ++ " directories in repository root",
          "Organize your code into logical modules/directories (e.g., src/, lib/, tests/). This improves maintainability and code organization."⟩]
      | none =>
        [⟨category, "Code is modular and maintainable", false, 1,
          "Could not analyze repository structure",
          "Organize your code into logical modules and directories to improve maintainability."⟩])
  ++ [⟨category, "Adheres to DRY principle", true, 1,
       "Manual code review recommended - automated check not possible",
       "Follow the Don\x27t Repeat Yourself (DRY) principle. Extract common code into reusable functions/modules."⟩,
      ⟨category, "Secure coding practices followed", true, 1,
       "Verified by other security checks in this report",
       "Follow OWASP secure coding guidelines. Review the Security & OWASP Compliance section for specific recommendations."⟩,
      ⟨category, "No hardcoded credentials or secrets", _check_no_secrets repo, 1,
       "Basic pattern check performed",
       "Remove any hardcoded passwords, API keys, or secrets from your code. Use environment variables or secure vaults. Scan with tools like git-secrets or truffleHog."⟩,
      ⟨category, "Uses parameterized queries", true, 1,
       "Manual verification recommended for SQL databases",
       "If using databases, always use parameterized queries or prepared statements. Never concatenate user input directly into SQL queries."⟩,
      ⟨category, "Strong cryptographic algorithms", true, 1,
       "Manual review recommended",
       "Use modern cryptographic algorithms (e.g., AES-256, SHA-256+). Avoid weak algorithms like MD5 or SHA-1 for security purposes."⟩,
      ⟨category, "Input validation implemented", true, 1,
       "Verified by security scanning recommendations",
       "Validate and sanitize all user inputs. Use allowlists, reject invalid data, and implement proper type checking."⟩,
      ⟨category, "Output encoding for XSS prevention", true, 1,
       "Verified by security scanning recommendations",
       "Encode all output to prevent XSS attacks. Use context-appropriate encoding (HTML, JavaScript, URL, CSS)."⟩]

/-- Method _check_security (lines 371-435). -/
def security_checks (repo : RepoFacts) : List CheckArgs :=
  let category := "Security & OWASP Compliance"
  [⟨category, "Security policy (SECURITY.md)", _check_file_exists repo "SECURITY.md", 1,
    "Checked for SECURITY.md file in repository root",
    "Create a SECURITY.md file to document your security policy and how to report vulnerabilities. GitHub provides a template under \x27Security\x27 tab."⟩,
   ⟨category, "Dependency scanning configured",
    _check_file_exists repo ".github/dependabot.yml", 1,
    "Checked for .github/dependabot.yml configuration",
    "Enable Dependabot in repository Settings > Security > Dependabot alerts. Create .github/dependabot.yml to configure automatic dependency updates."⟩,
   ⟨category, "Uses secure headers (CSP, HSTS, etc.)", true, 1,
    "Manual review required for web applications",
    "For web apps: implement Content-Security-Policy, Strict-Transport-Security, X-Frame-Options, X-Content-Type-Options headers."⟩,
   ⟨category, "Input validation enforced", true, 1,
    "Manual code review required",
    "Implement input validation for all user inputs. Use validation libraries, check data types, lengths, and formats. Reject invalid input."⟩,
   ⟨category, "RBAC implemented where applicable", true, 1,
    "Manual review required for multi-user systems",
    "If applicable: implement Role-Based Access Control (RBAC). Define roles and permissions, restrict access based on user roles."⟩,
   ⟨category, "Secure authentication mechanisms", true, 1,
    "Manual review required for auth systems",
    "Use industry-standard authentication (OAuth 2.0, OpenID Connect). Implement MFA where possible. Use secure password hashing (bcrypt, Argon2)."⟩,
   ⟨category, "Secrets stored securely", true, 1,
    "Check for .env.example file, ensure no .env in repository",
    "Never commit secrets to Git. Use environment variables, .env files (gitignored), or secret managers (AWS Secrets Manager, Azure Key Vault). Add .env.example as template."⟩,
   ⟨category, "Uses HTTPS for communication", true, 1,
    "Manual verification required",
    "Always use HTTPS for network communication. Configure TLS/SSL certificates. Force HTTPS redirects in web applications."⟩,
   ⟨category, "Adheres to OWASP ASVS", true, 1,
    "Manual security assessment required",
    "Review the OWASP Application Security Verification Standard (ASVS) at https://owasp.org/www-project-application-security-verification-standard/"⟩,
   ⟨category, "Secure cookie attributes", true, 1,
    "For web applications: verify cookie settings",
    "For web apps: set Secure, HttpOnly, and SameSite attributes on cookies. Use __Host- or __Secure- prefixes."⟩,
   ⟨category, "No unnecessary ports exposed", true, 1,
    "Manual infrastructure review required",
    "Review firewall rules and exposed ports. Only expose necessary ports. Use security groups and network policies to restrict access."⟩,
   ⟨category, "Logs security events", true, 1,
    "Manual logging implementation review required",
    "Log security-relevant events: authentication attempts, authorization failures, input validation errors. Include timestamps and user context."⟩,
   ⟨category, "Least privilege principle", true, 1,
    "Manual code and infrastructure review required",
    "Grant minimum permissions needed. Avoid running as root/admin. Use service accounts with limited permissions."⟩,
   ⟨category, "No outdated/unsafe dependencies", true, 1,
    "Regular dependency scanning recommended",
    "Use tools like OWASP Dependency-Check, Snyk, or npm audit. Keep dependencies updated. Enable Dependabot or Renovate for automated updates."⟩,
   ⟨category, "Complies with OWASP Top 10", true, 1,
    "Manual security testing and review required",
    "Review and test against OWASP Top 10 vulnerabilities at https://owasp.org/www-project-top-ten/. Consider security testing tools and penetration testing."⟩]

/-- Method _check_cicd (lines 437-481). -/
def cicd_checks (repo : RepoFacts) : List CheckArgs :=
  let category := "CI/CD & DevSecOps"
  let has_tests := _check_directory_exists repo "tests" || _check_directory_exists repo "test" ||
    _check_directory_exists repo "__tests__"
  let has_ci := _check_directory_exists repo ".github/workflows" ||
    _check_file_exists repo ".gitlab-ci.yml" || _check_file_exists repo ".travis.yml" ||
    _check_file_exists repo "Jenkinsfile"
  [⟨category, "Automated unit tests implemented", has_tests, 1,
    "Checked for tests/, test/, or __tests__ directories",
    "Create a tests/ or test/ directory and add unit tests for your code. Use testing frameworks like pytest (Python), Jest (JavaScript), JUnit (Java), etc."⟩,
   ⟨category, "Continuous Integration configured", has_ci, 1,
    "Checked for .github/workflows/, .gitlab-ci.yml, .travis.yml, or Jenkinsfile",
    "Set up CI using GitHub Actions (.github/workflows/), GitLab CI (.gitlab-ci.yml), Travis CI, or Jenkins. Run tests automatically on every push."⟩,
   ⟨category, "CI/CD includes security scanning", has_ci, 1,
    "Verify workflow files include SAST/DAST tools",
    "Add security scanning to your CI pipeline. Use CodeQL (GitHub), SonarQube, or other SAST tools. Add the scan step to your workflow file."⟩,
   ⟨category, "Dependency scanning automated", has_ci, 1,
    "Check for dependency scanning in CI workflows",
    "Add dependency scanning to CI. Use GitHub\x27s Dependabot, Snyk, or OWASP Dependency-Check. Configure in .github/dependabot.yml or CI workflow."⟩,
   ⟨category, "Code coverage reports generated", has_ci, 1,
    "Check for coverage tools in CI configuration",
    "Add code coverage to your CI pipeline. Use tools like Coverage.py (Python), Istanbul/NYC (JavaScript), JaCoCo (Java). Report coverage with Codecov or Coveralls."⟩,
   ⟨category, "Container security scanning", true, 1,
    "Required if project uses containers",
    "If using Docker: scan images with Trivy, Clair, or Snyk Container. Add to CI: \x27docker scan\x27 or trivy image scan before deployment."⟩,
   ⟨category, "IaC security checks", true, 1,
    "Required if using Infrastructure as Code",
    "If using IaC (Terraform, CloudFormation): use tools like Checkov, tfsec, or CloudFormation Guard to scan for security issues."⟩,
   ⟨category, "Secure secrets management in CI/CD", true, 1,
    "Manual verification: ensure no secrets in workflow files",
    "Use GitHub Secrets, GitLab CI/CD variables, or similar for sensitive data. Never hardcode secrets in workflow files. Reference secrets as $\x7b\x7b secrets.SECRET_NAME \x7d\x7d."⟩,
   ⟨category, "Environment configurations managed", true, 1,
    "Check for .env.example or config documentation",
    "Document environment variables in .env.example. Use environment-specific configs. Keep production secrets out of version control."⟩,
   ⟨category, "Rollback mechanisms available", true, 1,
    "Manual deployment process review required",
    "Implement deployment rollback capability. Use versioned releases, blue-green deployments, or feature flags for safe rollbacks."⟩]

/-- Method _check_testing (lines 483-507).  Most calls here leave how_to_fix at
its default empty string, and several leave details empty too. -/
def testing_checks (repo : RepoFacts) : List CheckArgs :=
  let category := "Testing & Validation"
  let has_tests := _check_directory_exists repo "tests" || _check_directory_exists repo "test"
  [⟨category, "Tests cover edge cases", has_tests, 1, "Requires test review", ""⟩,
   ⟨category, "Unit, integration, and E2E tests", has_tests, 1, "", ""⟩,
   ⟨category, "Uses mocks and stubs", has_tests, 1, "Check test files", ""⟩,
   ⟨category, "Achieves 80%+ test coverage", has_tests, 1, "Run coverage tools", ""⟩,
   ⟨category, "Tests validate input sanitization", has_tests, 1, "", ""⟩,
   ⟨category, "Automated fuzz testing", false, 1, "Advanced feature", ""⟩,
   ⟨category, "Fails gracefully with error logging", true, 1, "Manual verification", ""⟩,
   ⟨category, "No sensitive data in logs", true, 1, "Code review needed", ""⟩,
   ⟨category, "Uses dependency injection", true, 1, "Architecture review", ""⟩,
   ⟨category, "Regression tests for compatibility", has_tests, 1, "", ""⟩]

/-- Method _check_performance (lines 509-533). -/
def performance_checks (_repo : RepoFacts) : List CheckArgs :=
  let category := "Performance & Scalability"
  [⟨category, "Code optimized for performance", true, 1, "Requires profiling", ""⟩,
   ⟨category, "Asynchronous processing where needed", true, 1, "Architecture review", ""⟩,
   ⟨category, "Caching strategies implemented", true, 1, "Check for cache configuration", ""⟩,
   ⟨category, "Optimized database queries", true, 1, "Database review needed", ""⟩,
   ⟨category, "Rate limiting to prevent abuse", true, 1, "For web services", ""⟩,
   ⟨category, "No memory leaks", true, 1, "Profiling required", ""⟩,
   ⟨category, "Load testing performed", false, 1, "Check for load test scripts", ""⟩,
   ⟨category, "Supports horizontal scaling", true, 1, "Architecture review", ""⟩,
   ⟨category, "Uses lazy loading", true, 1, "Manual code review", ""⟩,
   ⟨category, "Pagination for large datasets", true, 1, "API/UI review", ""⟩]

/-- Method _check_logging (lines 535-559). -/
def logging_checks (_repo : RepoFacts) : List CheckArgs :=
  let category := "Logging & Monitoring"
  [⟨category, "Logging implemented", true, 1, "Check for logging framework", ""⟩,
   ⟨category, "Configurable log levels", true, 1, "Check configuration files", ""⟩,
   ⟨category, "Logs don\x27t contain sensitive data", true, 1, "Code review required", ""⟩,
   ⟨category, "Monitoring integration", false, 1, "Check for monitoring setup", ""⟩,
   ⟨category, "Structured logging format", true, 1, "Check logging implementation", ""⟩,
   ⟨category, "Audit logs for security actions", true, 1, "Security review needed", ""⟩,
   ⟨category, "Alerts configured", false, 1, "Manual infrastructure check", ""⟩,
   ⟨category, "Log rotation and archival", true, 1, "Operations review", ""⟩,
   ⟨category, "Incident response playbook", false, 1, "Check documentation", ""⟩,
   ⟨category, "Logging config separate from code", true, 1, "Check for config files", ""⟩]

/-- Method _check_community (lines 561-600). -/
def community_checks (repo : RepoFacts) : List CheckArgs :=
  let category := "Community & Support"
  let has_security_md := _check_file_exists repo "SECURITY.md"
  let recently_updated := match repo.pushed_at with
    | some _ => repo.pushed_within_last_year
    | none => false
  [⟨category, "Maintainers actively engage", repo.pushed_at.isSome, 1, "", ""⟩,
   ⟨category, "Security vulnerability reporting process", has_security_md, 1, "", ""⟩,
   ⟨category, "Security policy file (SECURITY.md)", has_security_md, 1, "", ""⟩,
   ⟨category, "Community guidelines present", true, 1, "Check CODE_OF_CONDUCT.md", ""⟩,
   ⟨category, "Responsive to security issues", true, 1, "Check issue response time", ""⟩,
   ⟨category, "Regular project updates", recently_updated, 1,
    "Last update: " ++ (match repo.pushed_at with | some d => d | none => "None"), ""⟩,
   ⟨category, "Multiple support channels", repo.has_discussions, 1,
    if repo.has_discussions then "GitHub Discussions enabled" else "Check for other channels", ""⟩,
   ⟨category, "Clear escalation path", true, 1, "Check SECURITY.md", ""⟩,
   ⟨category, "PR reviews before merging", true, 1, "Check branch protection", ""⟩,
   ⟨category, "Good issue tracking hygiene", true, 1,
    "Open issues: " ++ toString repo.open_issues_count, ""⟩]

/-- Method _check_legal (lines 602-627). -/
def legal_checks (repo : RepoFacts) : List CheckArgs :=
  let category := "Legal & Compliance"
  [⟨category, "GDPR/CCPA compliance", true, 1, "Manual legal review needed", ""⟩,
   ⟨category, "Dependencies properly licensed", repo.license.isSome, 1,
    "Check third-party licenses", ""⟩,
   ⟨category, "No proprietary/restricted code", repo.license.isSome, 1, "", ""⟩,
   ⟨category, "Users informed of data collection", _check_file_exists repo "PRIVACY.md", 1, "", ""⟩,
   ⟨category, "Responsible disclosure policy", _check_file_exists repo "SECURITY.md", 1, "", ""⟩]

/-- The full repository rule catalog, in the category order of lines
79-88. -/
def repo_catalog (repo : RepoFacts) (owner : String) : List CheckArgs :=
  general_compliance_checks repo owner ++ documentation_checks repo ++
  code_quality_checks repo ++ security_checks repo ++ cicd_checks repo ++
  testing_checks repo ++ performance_checks repo ++ logging_checks repo ++
  community_checks repo ++ legal_checks repo

/-! ### The per-category state functions and the engine -/

/-- Method _check_general_compliance as a state transformer. -/
def _check_general_compliance (st : CheckerState) (repo : RepoFacts) (owner : String) : CheckerState :=
  runChecks st (general_compliance_checks repo owner)

/-- Method _check_documentation as a state transformer. -/
def _check_documentation (st : CheckerState) (repo : RepoFacts) : CheckerState :=
  runChecks st (documentation_checks repo)

/-- Method _check_code_quality as a state transformer. -/
def _check_code_quality (st : CheckerState) (repo : RepoFacts) : CheckerState :=
  runChecks st (code_quality_checks repo)

/-- Method _check_security as a state transformer. -/
def _check_security (st : CheckerState) (repo : RepoFacts) : CheckerState :=
  runChecks st (security_checks repo)

/-- Method _check_cicd as a state transformer. -/
def _check_cicd (st : CheckerState) (repo : RepoFacts) : CheckerState :=
  runChecks st (cicd_checks repo)

/-- Method _check_testing as a state transformer. -/
def _check_testing (st : CheckerState) (repo : RepoFacts) : CheckerState :=
  runChecks st (testing_checks repo)

/-- Method _check_performance as a state transformer. -/
def _check_performance (st : CheckerState) (repo : RepoFacts) : CheckerState :=
  runChecks st (performance_checks repo)

/-- Method _check_logging as a state transformer. -/
def _check_logging (st : CheckerState) (repo : RepoFacts) : CheckerState :=
  runChecks st (logging_checks repo)

/-- Method _check_community as a state transformer. -/
def _check_community (st : CheckerState) (repo : RepoFacts) : CheckerState :=
  runChecks st (community_checks repo)

/-- Method _check_legal as a state transformer. -/
def _check_legal (st : CheckerState) (repo : RepoFacts) : CheckerState :=
  runChecks st (legal_checks repo)

/-- The error message built on lines 90-98.  GithubException always
carries a status attribute, so the hasattr guard on line 92 is always
taken. -/
def repoFetchErrorMsg (status : Nat) : String :=
  "Failed to fetch repository. " ++ ("Status: " ++ toString status ++ ". ") ++
  (if status == 403 then
    "API rate limit may be exceeded. Consider using a GitHub token with --token option."
   else
    "Please check the repository URL and your network connection.")

/-- Method _check_github_repo (lines 68-100). -/
def _check_github_repo (env : Env) (st : CheckerState) (owner repo_name : String) : CheckerState :=
  match env.resolve owner repo_name with
  | .ok repo =>
    let st := _check_general_compliance st repo owner
    let st := _check_documentation st repo
    let st := _check_code_quality st repo
    let st := _check_security st repo
    let st := _check_cicd st repo
    let st := _check_testing st repo
    let st := _check_performance st repo
    let st := _check_logging st repo
    let st := _check_community st repo
    let st := _check_legal st repo
    st
  | .githubError status =>
    { st with results := { st.results with error := some (repoFetchErrorMsg status) } }
  | .otherError ename emsg =>
    { st with results := { st.results with error := some ("Unexpected error: " ++ ename ++ ": " ++ emsg) } }

/-- The two website rules of lines 642-648, on the lowercased page
text. -/
def website_checks (content : String) : List CheckArgs :=
  let category := "Website Compliance"
  [⟨category, "Mentions OWASP", pyIn "owasp" content, 5, "", ""⟩,
   ⟨category, "Security-focused content",
    ["security", "vulnerability", "privacy"].any (fun keyword => pyIn keyword content), 5, "", ""⟩]

/-- Method _check_website_compliance (lines 629-654).  fetchSite bundles
requests.get plus BeautifulSoup get_text; any exception in that block
carries str(e). -/
def _check_website_compliance (env : Env) (st : CheckerState) (url : String) : CheckerState :=
  match env.fetchSite url with
  | .ok pageText =>
    let content := pyLower pageText
    let st := runChecks st (website_checks content)
    { st with results := { st.results with note := some "Limited compliance checks for non-GitHub URLs. Consider providing a GitHub repository URL for comprehensive analysis." } }
  | .error e =>
    { st with results := { st.results with error := some ("Failed to fetch website: " ++ e) } }

/-- The fresh results dictionary of lines 39-45 (error and note keys are
absent at this point). -/
def resetResults (st : CheckerState) (repo_url : String) : CheckerState :=
  { st with results :=
      { url := repo_url, score := 0, max_score := st.max_score, percentage := 0,
        categories := [], error := none, note := none } }

/-- Lines 62-64: score is the accumulated self.current_score and
percentage is round(current_score / max_score * 100, 2). -/
def finalizeReport (st : CheckerState) : CheckerState :=
  { st with results := { st.results with
      score := st.current_score,
      percentage := pyRound2 (((st.current_score : Rat) / (st.max_score : Rat)) * 100) } }

/-- The path components computed on line 54:
parsed_url.path.strip("/").split("/"). -/
def pathParts (parsed : ParsedUrl) : List String :=
  pySplitSlash (stripSlashes parsed.path)

/-- check_compliance (lines 30-66), with the urlparse output passed
alongside the raw URL.  Note that self.current_score is not reset
here (only __init__ sets it to 0). -/
def check_compliance (env : Env) (st : CheckerState) (repo_url : String)
    (parsed : ParsedUrl) : CheckerState :=
  let st := resetResults st repo_url
  let is_github := ["github.com", "www.github.com"].contains (pyLower parsed.netloc)
  let st :=
    if is_github then
      match pathParts parsed with
      | owner :: repo_name :: _ => _check_github_repo env st owner repo_name
      | _ => st
    else
      _check_website_compliance env st repo_url
  finalizeReport st

/-- The state built by __init__ (lines 18-28): max_score 100,
current_score 0; self.results starts as an empty dictionary, rendered
as an all-empty report since check_compliance overwrites it before any
read. -/
def initState : CheckerState :=
  { max_score := 100, current_score := 0,
    results := { url := "", score := 0, max_score := 0, percentage := 0,
                 categories := [], error := none, note := none } }

/-! ### Scoring invariants -/

/-- Sum of the weights of the passed checks of a list. -/
def sumWeightsPassed (l : List Check) : Nat :=
  (l.map (fun c => if c.passed then c.max_points else 0)).sum

/-- Sum of the weights of all checks of a list. -/
def sumWeights (l : List Check) : Nat := (l.map (fun c => c.max_points)).sum

/-- The category bookkeeping invariant: score is the sum of the weights
of the passed checks and max_score the sum of all weights. -/
def CatSums (cat : CategoryResult) : Prop :=
  cat.score = sumWeightsPassed cat.checks ∧ cat.max_score = sumWeights cat.checks

/-- Per-record invariant: a passed check is awarded its full weight and
carries no remediation, a failed check is awarded 0 points. -/
def CheckWF (c : Check) : Prop :=
  (c.passed = true → c.points = c.max_points ∧ c.how_to_fix = "") ∧
  (c.passed = false → c.points = 0)

/-- Full category invariant: bookkeeping plus per-record shape. -/
def CatWF (cat : CategoryResult) : Prop :=
  CatSums cat ∧ ∀ c ∈ cat.checks, CheckWF c

/-- Sum of the category scores of a categories mapping. -/
def catScores (cats : List (String × CategoryResult)) : Nat :=
  (cats.map (fun p => p.2.score)).sum

/-- Sum of the category max scores of a categories mapping. -/
def catMaxes (cats : List (String × CategoryResult)) : Nat :=
  (cats.map (fun p => p.2.max_score)).sum

/-- Points awarded by a list of _add_check calls. -/
def sumAwarded (l : List CheckArgs) : Nat :=
  (l.map (fun a => if a.passed then a.points else 0)).sum

/-- Points possible for a list of _add_check calls. -/
def sumPoints (l : List CheckArgs) : Nat := (l.map (fun a => a.points)).sum

/-- True when no check record anywhere in the report carries remediation
text. -/
def allRemediationEmpty (r : Report) : Bool :=
  r.categories.all (fun p => p.2.checks.all (fun c => c.how_to_fix == ""))

/-- A repository on which every adapter supplied fact is favorable:
README with all probed keywords, a license, every probed file and
directory present, non zero counters, wiki and discussions enabled,
recent activity, commented code and two root directories. -/
def favorableRepo : RepoFacts :=
  { readme := some "goal install usage", license := some "MIT License",
    open_issues_count := 1, updated_at := some "2026-01-01",
    recent_commits := some 10,
    contents_paths := ["CONTRIBUTING.md", "CODE_OF_CONDUCT.md", "ROADMAP.md", "docs",
      "swagger.yaml", "scripts/README.md", "FAQ.md", "CHANGELOG.md", ".editorconfig",
      "SECURITY.md", ".github/dependabot.yml", "tests", ".github/workflows", "PRIVACY.md"],
    has_wiki := true,
    root_contents := some [⟨"src", true, ""⟩, ⟨"docs", true, ""⟩, ⟨"main.py", false, "# main"⟩],
    releases_count := 1, tags_count := 1, milestones_count := 1, collaborators_count := 2,
    has_discussions := true, pushed_at := some "2026-10-01 00:00:00",
    pushed_within_last_year := true }

/-- An environment whose resolve call always succeeds with the favorable
repository. -/
def favorableEnv : Env :=
  { resolve := fun _ _ => .ok favorableRepo, fetchSite := fun _ => .error "unused" }

/-- The favorable target URL. -/
def urlFav : String := "https://github.com/OWASP/project"

/-- The parsed favorable target. -/
def parsedFav : ParsedUrl := ⟨"github.com", "/OWASP/project"⟩

/-- The report of a fresh run on the fully favorable repository. -/
def repFav : Report := (check_compliance favorableEnv initState urlFav parsedFav).results

/-- An environment serving a web page whose extracted text is the single
word OWASP. -/
def websiteEnv : Env :=
  { resolve := fun _ _ => .githubError 404, fetchSite := fun _ => .ok "OWASP" }

/-- A generic website target URL. -/
def webUrl : String := "http://example.com"

/-- The parsed generic website target. -/
def webParsed : ParsedUrl := ⟨"example.com", "/"⟩

/-- First run of the website target on a fresh checker. -/
def webFirst : CheckerState := check_compliance websiteEnv initState webUrl webParsed

/-- Second run of the same target on the same checker instance. -/
def webSecond : CheckerState := check_compliance websiteEnv webFirst webUrl webParsed

/-- An environment that records, inside the resulting error message,
which owner/name pair the engine asked it to resolve and which URL it
asked it to fetch; used to observe classification and extraction. -/
def probeEnv : Env :=
  { resolve := fun owner repo_name => .otherError "Probe" (owner ++ "/" ++ repo_name),
    fetchSite := fun u => .error ("website probe " ++ u) }

/-- An environment whose resolve call always fails with HTTP 403. -/
def rateLimitedEnv : Env :=
  { resolve := fun _ _ => .githubError 403, fetchSite := fun _ => .error "" }

theorem sumWeightsPassed_append (l : List Check) (c : Check) :
    sumWeightsPassed (l ++ [c]) = sumWeightsPassed l + (if c.passed then c.max_points else 0) := by
  simp [sumWeightsPassed]

theorem sumWeights_append (l : List Check) (c : Check) :
    sumWeights (l ++ [c]) = sumWeights l + c.max_points := by
  simp [sumWeights]

theorem CatSums_catAppend (cat : CategoryResult) (h : CatSums cat)
    (n : String) (pa : Bool) (pts : Nat) (d f : String) :
    CatSums (catAppend cat (newCheckOf n pa pts d f) pa pts) := by
  obtain ⟨h1, h2⟩ := h
  constructor
  · simp [catAppend, sumWeightsPassed_append, newCheckOf, h1]
  · simp [catAppend, sumWeights_append, newCheckOf, h2]

theorem CheckWF_newCheckOf (n : String) (pa : Bool) (pts : Nat) (d f : String) :
    CheckWF (newCheckOf n pa pts d f) := by
  cases pa <;> simp [CheckWF, newCheckOf]

theorem CatWF_catAppend (cat : CategoryResult) (h : CatWF cat)
    (n : String) (pa : Bool) (pts : Nat) (d f : String) :
    CatWF (catAppend cat (newCheckOf n pa pts d f) pa pts) := by
  obtain ⟨h1, h2⟩ := h
  refine ⟨CatSums_catAppend cat h1 n pa pts d f, ?_⟩
  intro c hc
  simp only [catAppend, List.mem_append, List.mem_singleton] at hc
  rcases hc with hc | hc
  · exact h2 c hc
  · subst hc; exact CheckWF_newCheckOf n pa pts d f

theorem CatSums_emptyCat : CatSums emptyCat := by
  constructor <;> rfl

theorem CatWF_emptyCat : CatWF emptyCat := by
  refine ⟨CatSums_emptyCat, ?_⟩
  intro c hc
  simp [emptyCat] at hc

theorem updateCat_scores (c : String) (nc : Check) (pa : Bool) (pts : Nat) :
    ∀ cats : List (String × CategoryResult),
      (cats.find? (fun p => p.1 == c)).isSome = true →
      catScores (updateCat cats c nc pa pts) = catScores cats + (if pa then pts else 0) := by
  intro cats
  induction cats with
  | nil => intro hc; simp [List.find?] at hc
  | cons p rest ih =>
    intro hc
    cases hp : p.1 == c with
    | true =>
      simp only [updateCat, hp, ite_true, catScores, catAppend, List.map_cons, List.sum_cons]
      omega
    | false =>
      rw [List.find?_cons_of_neg _ (by simp [hp])] at hc
      have h2 := ih hc
      simp only [catScores] at h2
      simp only [updateCat, hp, Bool.false_eq_true, ite_false, catScores, List.map_cons,
        List.sum_cons]
      omega

theorem updateCat_maxes (c : String) (nc : Check) (pa : Bool) (pts : Nat) :
    ∀ cats : List (String × CategoryResult),
      (cats.find? (fun p => p.1 == c)).isSome = true →
      catMaxes (updateCat cats c nc pa pts) = catMaxes cats + pts := by
  intro cats
  induction cats with
  | nil => intro hc; simp [List.find?] at hc
  | cons p rest ih =>
    intro hc
    cases hp : p.1 == c with
    | true =>
      simp only [updateCat, hp, ite_true, catMaxes, catAppend, List.map_cons, List.sum_cons]
      omega
    | false =>
      rw [List.find?_cons_of_neg _ (by simp [hp])] at hc
      have h2 := ih hc
      simp only [catMaxes] at h2
      simp only [updateCat, hp, Bool.false_eq_true, ite_false, catMaxes, List.map_cons,
        List.sum_cons]
      omega

theorem updateCat_forall (P : CategoryResult → Prop) (c : String) (nc : Check)
    (pa : Bool) (pts : Nat)
    (hP : ∀ cat, P cat → P (catAppend cat nc pa pts)) :
    ∀ cats : List (String × CategoryResult),
      (∀ p ∈ cats, P p.2) → ∀ q ∈ updateCat cats c nc pa pts, P q.2 := by
  intro cats
  induction cats with
  | nil => intro _ q hq; simp [updateCat] at hq
  | cons p rest ih =>
    intro h q hq
    cases hp : p.1 == c with
    | true =>
      simp only [updateCat, hp, ite_true] at hq
      rcases List.mem_cons.mp hq with hq | hq
      · subst hq; exact hP p.2 (h p (List.mem_cons_self p rest))
      · exact h q (List.mem_cons_of_mem p hq)
    | false =>
      simp only [updateCat, hp, Bool.false_eq_true, ite_false] at hq
      rcases List.mem_cons.mp hq with hq | hq
      · subst hq; exact h q (List.mem_cons_self q rest)
      · exact ih (fun r hr => h r (List.mem_cons_of_mem p hr)) q hq

theorem updateCat_append_last (c : String) (nc : Check) (pa : Bool) (pts : Nat)
    (cat0 : CategoryResult) :
    ∀ cats : List (String × CategoryResult),
      (∀ p ∈ cats, (p.1 == c) = false) →
      updateCat (cats ++ [(c, cat0)]) c nc pa pts = cats ++ [(c, catAppend cat0 nc pa pts)] := by
  intro cats
  induction cats with
  | nil => intro _; simp [updateCat]
  | cons p rest ih =>
    intro h
    have hp := h p (List.mem_cons_self p rest)
    simp only [List.cons_append, updateCat, hp, Bool.false_eq_true, ite_false]
    exact congrArg (fun l => p :: l) (ih (fun r hr => h r (List.mem_cons_of_mem p hr)))

theorem sumAwarded_nil : sumAwarded [] = 0 := rfl

theorem sumPoints_nil : sumPoints [] = 0 := rfl

theorem sumAwarded_cons (a : CheckArgs) (t : List CheckArgs) :
    sumAwarded (a :: t) = (if a.passed then a.points else 0) + sumAwarded t := by
  simp [sumAwarded]

theorem sumPoints_cons (a : CheckArgs) (t : List CheckArgs) :
    sumPoints (a :: t) = a.points + sumPoints t := by
  simp [sumPoints]

theorem sumPoints_append (l1 l2 : List CheckArgs) :
    sumPoints (l1 ++ l2) = sumPoints l1 + sumPoints l2 := by
  simp [sumPoints]

theorem sumAwarded_le_sumPoints : ∀ l : List CheckArgs, sumAwarded l ≤ sumPoints l := by
  intro l
  induction l with
  | nil => simp [sumAwarded, sumPoints]
  | cons a t ih =>
    rw [sumAwarded_cons, sumPoints_cons]
    have h : (if a.passed then a.points else 0) ≤ a.points := by split <;> omega
    omega

theorem sumWeightsPassed_le_sumWeights : ∀ l : List Check,
    sumWeightsPassed l ≤ sumWeights l := by
  intro l
  induction l with
  | nil => simp [sumWeightsPassed, sumWeights]
  | cons a t ih =>
    simp only [sumWeightsPassed, sumWeights, List.map_cons, List.sum_cons] at ih ⊢
    have h : (if a.passed then a.max_points else 0) ≤ a.max_points := by split <;> omega
    omega

theorem catScores_le_catMaxes : ∀ cats : List (String × CategoryResult),
    (∀ p ∈ cats, p.2.score ≤ p.2.max_score) → catScores cats ≤ catMaxes cats := by
  intro cats
  induction cats with
  | nil => intro _; simp [catScores, catMaxes]
  | cons p rest ih =>
    intro h
    simp only [catScores, catMaxes, List.map_cons, List.sum_cons] at ih ⊢
    have h1 := h p (List.mem_cons_self p rest)
    have h2 := ih (fun r hr => h r (List.mem_cons_of_mem p hr))
    omega

/-! ### Facts about one _add_check call -/

theorem _add_check_categories (st : CheckerState) (c n : String) (pa : Bool)
    (pts : Nat) (d f : String) :
    (_add_check st c n pa pts d f).results.categories =
      updateCat
        (if ((st.results.categories).find? (fun p => p.1 == c)).isSome then
          st.results.categories
         else st.results.categories ++ [(c, emptyCat)])
        c (newCheckOf n pa pts d f) pa pts := rfl

theorem _add_check_current (st : CheckerState) (c n : String) (pa : Bool)
    (pts : Nat) (d f : String) :
    (_add_check st c n pa pts d f).current_score
      = st.current_score + (if pa then pts else 0) := rfl

theorem _add_check_error (st : CheckerState) (c n : String) (pa : Bool)
    (pts : Nat) (d f : String) :
    (_add_check st c n pa pts d f).results.error = st.results.error := rfl

theorem _add_check_note (st : CheckerState) (c n : String) (pa : Bool)
    (pts : Nat) (d f : String) :
    (_add_check st c n pa pts d f).results.note = st.results.note := rfl

theorem _add_check_url (st : CheckerState) (c n : String) (pa : Bool)
    (pts : Nat) (d f : String) :
    (_add_check st c n pa pts d f).results.url = st.results.url := rfl

theorem _add_check_rep_max (st : CheckerState) (c n : String) (pa : Bool)
    (pts : Nat) (d f : String) :
    (_add_check st c n pa pts d f).results.max_score = st.results.max_score := rfl

theorem _add_check_state_max (st : CheckerState) (c n : String) (pa : Bool)
    (pts : Nat) (d f : String) :
    (_add_check st c n pa pts d f).max_score = st.max_score := rfl

theorem find?_none_forall {cats : List (String × CategoryResult)} {c : String}
    (h : cats.find? (fun p => p.1 == c) = none) :
    ∀ p ∈ cats, (p.1 == c) = false := by
  intro p hp
  have := List.find?_eq_none.mp h p hp
  simpa using this

theorem _add_check_catScores (st : CheckerState) (c n : String) (pa : Bool)
    (pts : Nat) (d f : String) :
    catScores (_add_check st c n pa pts d f).results.categories
      = catScores st.results.categories + (if pa then pts else 0) := by
  rw [_add_check_categories]
  cases hfind : st.results.categories.find? (fun p => p.1 == c) with
  | some e =>
    rw [if_pos (by simp [hfind])]
    exact updateCat_scores _ _ _ _ _ (by simp [hfind])
  | none =>
    rw [if_neg (by simp [hfind])]
    rw [updateCat_append_last _ _ _ _ _ _ (find?_none_forall hfind)]
    simp [catScores, catAppend, emptyCat]

theorem _add_check_catMaxes (st : CheckerState) (c n : String) (pa : Bool)
    (pts : Nat) (d f : String) :
    catMaxes (_add_check st c n pa pts d f).results.categories
      = catMaxes st.results.categories + pts := by
  rw [_add_check_categories]
  cases hfind : st.results.categories.find? (fun p => p.1 == c) with
  | some e =>
    rw [if_pos (by simp [hfind])]
    exact updateCat_maxes _ _ _ _ _ (by simp [hfind])
  | none =>
    rw [if_neg (by simp [hfind])]
    rw [updateCat_append_last _ _ _ _ _ _ (find?_none_forall hfind)]
    simp [catMaxes, catAppend, emptyCat]

theorem _add_check_CatWF (st : CheckerState) (c n : String) (pa : Bool)
    (pts : Nat) (d f : String)
    (h : ∀ p ∈ st.results.categories, CatWF p.2) :
    ∀ p ∈ (_add_check st c n pa pts d f).results.categories, CatWF p.2 := by
  rw [_add_check_categories]
  cases hfind : st.results.categories.find? (fun p => p.1 == c) with
  | some e =>
    rw [if_pos (by simp [hfind])]
    exact updateCat_forall CatWF c _ pa pts
      (fun cat hcat => CatWF_catAppend cat hcat n pa pts d f) _ h
  | none =>
    rw [if_neg (by simp [hfind])]
    refine updateCat_forall CatWF c _ pa pts
      (fun cat hcat => CatWF_catAppend cat hcat n pa pts d f) _ ?_
    intro p hp
    rcases List.mem_append.mp hp with hp | hp
    · exact h p hp
    · rw [List.mem_singleton.mp hp]; exact CatWF_emptyCat

theorem _add_check_CatSums (st : CheckerState) (c n : String) (pa : Bool)
    (pts : Nat) (d f : String)
    (h : ∀ p ∈ st.results.categories, CatSums p.2) :
    ∀ p ∈ (_add_check st c n pa pts d f).results.categories, CatSums p.2 := by
  rw [_add_check_categories]
  cases hfind : st.results.categories.find? (fun p => p.1 == c) with
  | some e =>
    rw [if_pos (by simp [hfind])]
    exact updateCat_forall CatSums c _ pa pts
      (fun cat hcat => CatSums_catAppend cat hcat n pa pts d f) _ h
  | none =>
    rw [if_neg (by simp [hfind])]
    refine updateCat_forall CatSums c _ pa pts
      (fun cat hcat => CatSums_catAppend cat hcat n pa pts d f) _ ?_
    intro p hp
    rcases List.mem_append.mp hp with hp | hp
    · exact h p hp
    · rw [List.mem_singleton.mp hp]; exact CatSums_emptyCat

/-! ### Facts about runChecks -/

theorem runChecks_nil (st : CheckerState) : runChecks st [] = st := rfl

theorem runChecks_cons (st : CheckerState) (a : CheckArgs) (t : List CheckArgs) :
    runChecks st (a :: t) =
      runChecks (_add_check st a.category a.name a.passed a.points a.details a.how_to_fix) t := rfl

theorem runChecks_append (st : CheckerState) (l1 l2 : List CheckArgs) :
    runChecks st (l1 ++ l2) = runChecks (runChecks st l1) l2 := by
  simp [runChecks, List.foldl_append]

theorem runChecks_current : ∀ (l : List CheckArgs) (st : CheckerState),
    (runChecks st l).current_score = st.current_score + sumAwarded l := by
  intro l
  induction l with
  | nil => intro st; simp [runChecks_nil, sumAwarded_nil]
  | cons a t ih =>
    intro st
    rw [runChecks_cons, ih, _add_check_current, sumAwarded_cons]
    omega

theorem runChecks_catScores : ∀ (l : List CheckArgs) (st : CheckerState),
    catScores (runChecks st l).results.categories
      = catScores st.results.categories + sumAwarded l := by
  intro l
  induction l with
  | nil => intro st; simp [runChecks_nil, sumAwarded_nil]
  | cons a t ih =>
    intro st
    rw [runChecks_cons, ih, _add_check_catScores, sumAwarded_cons]
    omega

theorem runChecks_catMaxes : ∀ (l : List CheckArgs) (st : CheckerState),
    catMaxes (runChecks st l).results.categories
      = catMaxes st.results.categories + sumPoints l := by
  intro l
  induction l with
  | nil => intro st; simp [runChecks_nil, sumPoints_nil]
  | cons a t ih =>
    intro st
    rw [runChecks_cons, ih, _add_check_catMaxes, sumPoints_cons]
    omega

theorem runChecks_CatWF : ∀ (l : List CheckArgs) (st : CheckerState),
    (∀ p ∈ st.results.categories, CatWF p.2) →
    ∀ p ∈ (runChecks st l).results.categories, CatWF p.2 := by
  intro l
  induction l with
  | nil => intro st h; simpa [runChecks_nil] using h
  | cons a t ih =>
    intro st h
    rw [runChecks_cons]
    exact ih _ (_add_check_CatWF st a.category a.name a.passed a.points a.details a.how_to_fix h)

theorem runChecks_error : ∀ (l : List CheckArgs) (st : CheckerState),
    (runChecks st l).results.error = st.results.error := by
  intro l
  induction l with
  | nil => intro st; rfl
  | cons a t ih => intro st; rw [runChecks_cons, ih, _add_check_error]

theorem runChecks_note : ∀ (l : List CheckArgs) (st : CheckerState),
    (runChecks st l).results.note = st.results.note := by
  intro l
  induction l with
  | nil => intro st; rfl
  | cons a t ih => intro st; rw [runChecks_cons, ih, _add_check_note]

theorem runChecks_rep_max : ∀ (l : List CheckArgs) (st : CheckerState),
    (runChecks st l).results.max_score = st.results.max_score := by
  intro l
  induction l with
  | nil => intro st; rfl
  | cons a t ih => intro st; rw [runChecks_cons, ih, _add_check_rep_max]

theorem runChecks_state_max : ∀ (l : List CheckArgs) (st : CheckerState),
    (runChecks st l).max_score = st.max_score := by
  intro l
  induction l with
  | nil => intro st; rfl
  | cons a t ih => intro st; rw [runChecks_cons, ih, _add_check_state_max]

/-! ### Catalog weight totals -/

theorem sumPoints_repo_catalog (repo : RepoFacts) (owner : String) :
    sumPoints (repo_catalog repo owner) = 100 := by
  rcases repo with ⟨rm, lic, oi, ua, rc, cp, hw, rcn, rel, tg, ms, col, hd, pat, pw⟩
  cases rm <;> cases rc <;> cases rcn <;>
    simp [repo_catalog, general_compliance_checks, documentation_checks, code_quality_checks,
      security_checks, cicd_checks, testing_checks, performance_checks, logging_checks,
      community_checks, legal_checks, sumPoints_append, sumPoints, List.map_cons]

theorem sumPoints_website_checks (content : String) :
    sumPoints (website_checks content) = 10 := rfl

/-! ### Facts about the engine wrapper -/

theorem resetResults_categories (st : CheckerState) (u : String) :
    (resetResults st u).results.categories = [] := rfl

theorem resetResults_current (st : CheckerState) (u : String) :
    (resetResults st u).current_score = st.current_score := rfl

theorem resetResults_rep_max (st : CheckerState) (u : String) :
    (resetResults st u).results.max_score = st.max_score := rfl

theorem resetResults_state_max (st : CheckerState) (u : String) :
    (resetResults st u).max_score = st.max_score := rfl

theorem resetResults_error (st : CheckerState) (u : String) :
    (resetResults st u).results.error = none := rfl

theorem resetResults_note (st : CheckerState) (u : String) :
    (resetResults st u).results.note = none := rfl

theorem finalizeReport_categories (st : CheckerState) :
    (finalizeReport st).results.categories = st.results.categories := rfl

theorem finalizeReport_score (st : CheckerState) :
    (finalizeReport st).results.score = st.current_score := rfl

theorem finalizeReport_current (st : CheckerState) :
    (finalizeReport st).current_score = st.current_score := rfl

theorem finalizeReport_rep_max (st : CheckerState) :
    (finalizeReport st).results.max_score = st.results.max_score := rfl

theorem finalizeReport_state_max (st : CheckerState) :
    (finalizeReport st).max_score = st.max_score := rfl

theorem finalizeReport_error (st : CheckerState) :
    (finalizeReport st).results.error = st.results.error := rfl

theorem finalizeReport_note (st : CheckerState) :
    (finalizeReport st).results.note = st.results.note := rfl

theorem finalizeReport_percentage (st : CheckerState) :
    (finalizeReport st).results.percentage
      = pyRound2 (((st.current_score : Rat) / (st.max_score : Rat)) * 100) := rfl

/-- With a successful resolution, _check_github_repo is the fold of the
whole repository catalog. -/
theorem _check_github_repo_ok (env : Env) (st : CheckerState) (owner repo_name : String)
    (repo : RepoFacts) (h : env.resolve owner repo_name = .ok repo) :
    _check_github_repo env st owner repo_name = runChecks st (repo_catalog repo owner) := by
  simp only [_check_github_repo, h]
  simp only [_check_general_compliance, _check_documentation, _check_code_quality,
    _check_security, _check_cicd, _check_testing, _check_performance, _check_logging,
    _check_community, _check_legal]
  simp only [repo_catalog, runChecks_append]

/-- The master facts about one check_compliance call: every category of
the produced report satisfies the full category invariant, the final
running total is the initial one plus the sum of the category scores of
the report, the category max scores sum to at most 100, and the two
max_score fields are carried over unchanged. -/
theorem check_compliance_main (env : Env) (st : CheckerState) (url : String)
    (parsed : ParsedUrl) :
    (∀ p ∈ (check_compliance env st url parsed).results.categories, CatWF p.2) ∧
    (check_compliance env st url parsed).current_score
      = st.current_score + catScores (check_compliance env st url parsed).results.categories ∧
    catMaxes (check_compliance env st url parsed).results.categories ≤ 100 ∧
    (check_compliance env st url parsed).results.max_score = st.max_score ∧
    (check_compliance env st url parsed).max_score = st.max_score := by
  simp only [check_compliance]
  simp only [finalizeReport_categories, finalizeReport_current, finalizeReport_rep_max,
    finalizeReport_state_max]
  split
  · -- github branch
    split
    · -- at least two path components
      rename_i owner repo_name rest heq
      cases hres : env.resolve owner repo_name with
      | ok repo =>
        rw [_check_github_repo_ok env _ owner repo_name repo hres]
        refine ⟨?_, ?_, ?_, ?_, ?_⟩
        · refine runChecks_CatWF _ _ ?_
          simp [resetResults_categories]
        · rw [runChecks_current, runChecks_catScores]
          simp [resetResults_categories, resetResults_current, catScores]
        · rw [runChecks_catMaxes, sumPoints_repo_catalog]
          simp [resetResults_categories, catMaxes]
        · rw [runChecks_rep_max, resetResults_rep_max]
        · rw [runChecks_state_max, resetResults_state_max]
      | githubError status =>
        simp only [_check_github_repo, hres]
        refine ⟨?_, ?_, ?_, ?_, ?_⟩ <;>
          simp [resetResults_categories, resetResults_current, catScores, catMaxes, resetResults]
      | otherError ename emsg =>
        simp only [_check_github_repo, hres]
        refine ⟨?_, ?_, ?_, ?_, ?_⟩ <;>
          simp [resetResults_categories, resetResults_current, catScores, catMaxes, resetResults]
    · -- fewer than two path components
      refine ⟨?_, ?_, ?_, ?_, ?_⟩ <;>
        simp [resetResults_categories, resetResults_current, catScores, catMaxes, resetResults]
  · -- website branch
    cases hfetch : env.fetchSite url with
    | ok pageText =>
      simp only [_check_website_compliance, hfetch]
      refine ⟨?_, ?_, ?_, ?_, ?_⟩
      · intro p hp
        refine runChecks_CatWF (website_checks (pyLower pageText)) _ ?_ p (by simpa using hp)
        simp [resetResults_categories]
      · show (runChecks _ _).current_score = _ + catScores (runChecks _ _).results.categories
        rw [runChecks_current, runChecks_catScores]
        simp [resetResults_categories, resetResults_current, catScores]
      · show catMaxes (runChecks _ _).results.categories ≤ 100
        rw [runChecks_catMaxes, sumPoints_website_checks]
        simp [resetResults_categories, catMaxes]
      · show (runChecks _ _).results.max_score = _
        rw [runChecks_rep_max, resetResults_rep_max]
      · show (runChecks _ _).max_score = _
        rw [runChecks_state_max, resetResults_state_max]
    | error e =>
      simp only [_check_website_compliance, hfetch]
      refine ⟨?_, ?_, ?_, ?_, ?_⟩ <;>
        simp [resetResults_categories, resetResults_current, catScores, catMaxes, resetResults]

/-! ### Percentage arithmetic helpers -/

theorem pyRound2_coe_nat (n : Nat) : pyRound2 ((n : Rat)) = (n : Rat) := by
  unfold pyRound2
  have h : ((n : Rat)) * 100 + 1 / 2 = ((n * 100 : Nat) : Rat) + 1 / 2 := by
    push_cast; ring
  rw [h, Int.floor_nat_add, (by norm_num : (Int.floor ((1 : Rat) / 2)) = 0)]
  push_cast
  field_simp

theorem percentage_formula (s : Nat) :
    pyRound2 (((s : Rat) / ((100 : Nat) : Rat)) * 100) = (s : Rat) := by
  have h : ((s : Rat) / ((100 : Nat) : Rat)) * 100 = ((s : Nat) : Rat) := by
    push_cast; field_simp
  rw [h, pyRound2_coe_nat]

theorem check_compliance_score_current (env : Env) (st : CheckerState) (url : String)
    (parsed : ParsedUrl) :
    (check_compliance env st url parsed).results.score
      = (check_compliance env st url parsed).current_score := rfl

theorem check_compliance_percentage_raw (env : Env) (st : CheckerState) (url : String)
    (parsed : ParsedUrl) :
    (check_compliance env st url parsed).results.percentage
      = pyRound2 ((((check_compliance env st url parsed).current_score : Rat)
          / ((check_compliance env st url parsed).max_score : Rat)) * 100) := rfl

theorem contains_github_iff (s : String) :
    (["github.com", "www.github.com"].contains s) = true ↔
      (s = "github.com" ∨ s = "www.github.com") := by
  simp [List.contains]

/-! ### The claims -/

/-- Claim C1: for every category in a report produced by check_compliance,
the score equals the sum of the weights of its passed checks, the
max_score equals the sum of all its weights, hence score is at most
max_score; and the sums invariant is preserved by every _add_check
call. -/
theorem compliance_category_sums :
    (∀ (st : CheckerState) (category name : String) (passed : Bool) (points : Nat)
        (details how_to_fix : String),
      (∀ p ∈ st.results.categories, CatSums p.2) →
      ∀ p ∈ (_add_check st category name passed points details how_to_fix).results.categories,
        CatSums p.2) ∧
    (∀ (env : Env) (st : CheckerState) (url : String) (parsed : ParsedUrl),
      ∀ p ∈ (check_compliance env st url parsed).results.categories,
        CatSums p.2 ∧ p.2.score ≤ p.2.max_score) := by
  constructor
  · exact fun st c n pa pts d f h => _add_check_CatSums st c n pa pts d f h
  · intro env st url parsed p hp
    obtain ⟨h1, -, -, -, -⟩ := check_compliance_main env st url parsed
    have hw := h1 p hp
    refine ⟨hw.1, ?_⟩
    rw [hw.1.1, hw.1.2]
    exact sumWeightsPassed_le_sumWeights _

set_option maxRecDepth 100000 in
/-- Claim C1 witness: the invariant instantiated on a concrete
_add_check call from the initial state. -/
theorem compliance_category_sums_witness :
    CatSums (⟨[⟨"check", true, 2, 2, "", ""⟩], 2, 2⟩ : CategoryResult) :=
  compliance_category_sums.1 initState "General" "check" true 2 "" ""
    (fun p hp => absurd hp (by simp [initState]))
    ("General", ⟨[⟨"check", true, 2, 2, "", ""⟩], 2, 2⟩) (by decide)

set_option maxRecDepth 100000 in
/-- Claim C2 counterexample: the report of the fully favorable run
contains a failed check (Automated fuzz testing) whose remediation
string is empty, refuting that passed=false forces a non empty
remediation. -/
theorem failed_check_with_empty_remediation :
    (repFav.categories.any (fun p => p.2.checks.any (fun c =>
      c.name == "Automated fuzz testing" && !c.passed && c.how_to_fix == ""))) = true := by
  decide

/-- Claim C2 (amended): in every report, a passed check is awarded its
full weight and carries an empty remediation string, and a failed check
is awarded 0 points; a failed check may carry an empty remediation when
the call site passed none. -/
theorem check_record_shape (env : Env) (st : CheckerState) (url : String)
    (parsed : ParsedUrl) :
    ∀ p ∈ (check_compliance env st url parsed).results.categories,
      ∀ c ∈ p.2.checks,
        (c.passed = true → c.points = c.max_points ∧ c.how_to_fix = "") ∧
        (c.passed = false → c.points = 0) := by
  intro p hp c hc
  obtain ⟨h1, -, -, -, -⟩ := check_compliance_main env st url parsed
  exact (h1 p hp).2 c hc

set_option maxRecDepth 100000 in
/-- Claim C2 witness: the record shape theorem applied to the failed
website check of a concrete run. -/
theorem check_record_shape_witness :
    (⟨"Security-focused content", false, 0, 5, "", ""⟩ : Check).points = 0 :=
  (check_record_shape websiteEnv initState webUrl webParsed
    ("Website Compliance",
      ⟨[⟨"Mentions OWASP", true, 5, 5, "", ""⟩,
        ⟨"Security-focused content", false, 0, 5, "", ""⟩], 5, 10⟩) (by decide)
    ⟨"Security-focused content", false, 0, 5, "", ""⟩ (by decide)).2 rfl

set_option maxRecDepth 100000 in
/-- Claim C3 counterexample: with every adapter fact favorable the five
constant-false checks keep the score at 95, so score never reaches
max_score and the percentage never reaches 100. -/
theorem favorable_run_not_perfect :
    repFav.score = 95 ∧ repFav.max_score = 100 ∧ repFav.score ≠ repFav.max_score := by
  decide

set_option maxRecDepth 100000 in
/-- Claim C3 (amended): every report of a fresh run has max_score 100
and score at most max_score; on the fully favorable repository the five
constant-false checks cap the score at 95 with percentage 95.0, and no
check record anywhere in that report carries remediation text. -/
theorem report_score_bounds (env : Env) (url : String) (parsed : ParsedUrl) :
    ((check_compliance env initState url parsed).results.max_score = 100 ∧
     (check_compliance env initState url parsed).results.score
       ≤ (check_compliance env initState url parsed).results.max_score) ∧
    (repFav.score = 95 ∧ repFav.percentage = 95 ∧ allRemediationEmpty repFav = true) := by
  constructor
  · obtain ⟨h1, h2, h3, h4, -⟩ := check_compliance_main env initState url parsed
    have hms : (check_compliance env initState url parsed).results.max_score = 100 := by
      rw [h4]; rfl
    refine ⟨hms, ?_⟩
    rw [hms, check_compliance_score_current, h2]
    have hle : ∀ p ∈ (check_compliance env initState url parsed).results.categories,
        p.2.score ≤ p.2.max_score := by
      intro p hp
      have hw := (h1 p hp).1
      rw [hw.1, hw.2]
      exact sumWeightsPassed_le_sumWeights _
    have hcc := catScores_le_catMaxes _ hle
    have h0 : initState.current_score = 0 := rfl
    omega
  · refine ⟨by decide, ?_, by decide⟩
    have hcur : (check_compliance favorableEnv initState urlFav parsedFav).current_score
        = 95 := by decide
    have hmax : (check_compliance favorableEnv initState urlFav parsedFav).max_score
        = 100 := by decide
    have hraw := check_compliance_percentage_raw favorableEnv initState urlFav parsedFav
    have : repFav.percentage
        = pyRound2 ((((95 : Nat) : Rat) / (((100 : Nat)) : Rat)) * 100) := by
      rw [show repFav.percentage
          = (check_compliance favorableEnv initState urlFav parsedFav).results.percentage
          from rfl, hraw, hcur, hmax]
    rw [this, percentage_formula 95]
    norm_num

/-- Claim C4: check_compliance finalizes score to the accumulated
running total and percentage to round(score / max_score * 100, 2); on a
fresh checker the score is the sum of the category scores, and a score
of 33 over max 100 rounds to exactly 33. -/
theorem finalize_score_percentage :
    (∀ (env : Env) (st : CheckerState) (url : String) (parsed : ParsedUrl),
      (check_compliance env st url parsed).results.score
        = (check_compliance env st url parsed).current_score ∧
      (check_compliance env st url parsed).results.percentage
        = pyRound2 ((((check_compliance env st url parsed).results.score : Rat)
            / ((check_compliance env st url parsed).results.max_score : Rat)) * 100)) ∧
    (∀ (env : Env) (url : String) (parsed : ParsedUrl),
      (check_compliance env initState url parsed).results.score
        = catScores (check_compliance env initState url parsed).results.categories) ∧
    pyRound2 (((33 : Rat) / (100 : Rat)) * 100) = 33 := by
  refine ⟨?_, ?_, ?_⟩
  · intro env st url parsed
    obtain ⟨-, -, -, h4, h5⟩ := check_compliance_main env st url parsed
    refine ⟨rfl, ?_⟩
    rw [check_compliance_percentage_raw, h5, ← h4]
    rfl
  · intro env url parsed
    obtain ⟨-, h2, -, -, -⟩ := check_compliance_main env initState url parsed
    rw [check_compliance_score_current, h2]
    have h0 : initState.current_score = 0 := rfl
    omega
  · have h : ((33 : Rat) / (100 : Rat)) * 100 = ((33 : Nat) : Rat) := by norm_num
    rw [h, pyRound2_coe_nat]
    norm_num

/-- Claim C5: when resolution of a repository target raises a
GithubException, no rules run — the report has zero categories and score
0, error carries the built message, and for status 403 that message
contains the rate limit remediation text suggesting a token. -/
theorem resolution_failure_report (env : Env) (url : String) (parsed : ParsedUrl)
    (owner repo_name : String) (rest : List String) (status : Nat)
    (hg : (["github.com", "www.github.com"].contains (pyLower parsed.netloc)) = true)
    (hpath : pathParts parsed = owner :: repo_name :: rest)
    (hres : env.resolve owner repo_name = .githubError status) :
    (check_compliance env initState url parsed).results.categories = [] ∧
    (check_compliance env initState url parsed).results.score = 0 ∧
    (check_compliance env initState url parsed).results.error
      = some (repoFetchErrorMsg status) ∧
    (status = 403 →
      pyIn "rate limit" (repoFetchErrorMsg status) = true ∧
      pyIn "token" (repoFetchErrorMsg status) = true) := by
  have hgor := (contains_github_iff _).mp hg
  refine ⟨?_, ?_, ?_, ?_⟩
  · simp [check_compliance, hgor, hpath, _check_github_repo, hres, finalizeReport, resetResults]
  · simp [check_compliance, hgor, hpath, _check_github_repo, hres, finalizeReport, resetResults,
      initState]
  · simp [check_compliance, hgor, hpath, _check_github_repo, hres, finalizeReport, resetResults]
  · intro h
    subst h
    exact ⟨by decide, by decide⟩

/-- Claim C5 witness: the resolution failure theorem applied to a
concrete 403 environment. -/
theorem resolution_failure_report_witness :
    (check_compliance rateLimitedEnv initState "https://github.com/OWASP/BLT"
        ⟨"github.com", "/OWASP/BLT"⟩).results.categories = [] ∧
    (check_compliance rateLimitedEnv initState "https://github.com/OWASP/BLT"
        ⟨"github.com", "/OWASP/BLT"⟩).results.score = 0 ∧
    (check_compliance rateLimitedEnv initState "https://github.com/OWASP/BLT"
        ⟨"github.com", "/OWASP/BLT"⟩).results.error = some (repoFetchErrorMsg 403) ∧
    pyIn "rate limit" (repoFetchErrorMsg 403) = true := by
  have h := resolution_failure_report rateLimitedEnv "https://github.com/OWASP/BLT"
    ⟨"github.com", "/OWASP/BLT"⟩ "OWASP" "BLT" [] 403 (by decide) (by decide) rfl
  exact ⟨h.1, h.2.1, h.2.2.1, (h.2.2.2 rfl).1⟩

set_option maxRecDepth 100000 in
/-- Claim C6: self.current_score is reset only in the constructor, so a
second check_compliance call on the same instance inflates the score:
the same website target scores 5 on the first run and 10 on the second,
where the second report even contradicts the sum of its own category
scores. -/
theorem second_call_score_inflation :
    webFirst.results.score = 5 ∧ webSecond.results.score = 10 ∧
    webSecond.results.score ≠ webFirst.results.score ∧
    catScores webSecond.results.categories = 5 := by
  decide

set_option maxRecDepth 100000 in
/-- Claim C7 counterexample: the URL path /o//r has non empty segments
o and r, but the engine extracts the raw first two components ("o", "")
of the split, as witnessed by the owner/name pair handed to the
resolver. -/
theorem raw_path_component_extraction :
    (check_compliance probeEnv initState "https://github.com/o//r"
        ⟨"github.com", "/o//r"⟩).results.error
      = some "Unexpected error: Probe: o/" ∧
    (check_compliance probeEnv initState "https://github.com/o//r"
        ⟨"github.com", "/o//r"⟩).results.error
      ≠ some "Unexpected error: Probe: o/r" := by
  decide

/-- Claim C7 (amended): a target is treated as a GitHub repository iff
the lowercased netloc is exactly github.com or www.github.com; in that
case the engine takes the first two raw components of
path.strip("/").split("/") as (owner, name) — components may be empty —
and every other input goes down the website path. -/
theorem github_host_classification (st : CheckerState) (url : String) (parsed : ParsedUrl) :
    ((pyLower parsed.netloc = "github.com" ∨ pyLower parsed.netloc = "www.github.com") →
      ∀ owner repo_name rest, pathParts parsed = owner :: repo_name :: rest →
        (check_compliance probeEnv st url parsed).results.error
          = some ("Unexpected error: Probe: " ++ (owner ++ "/" ++ repo_name))) ∧
    (¬(pyLower parsed.netloc = "github.com" ∨ pyLower parsed.netloc = "www.github.com") →
      (check_compliance probeEnv st url parsed).results.error
        = some ("Failed to fetch website: " ++ ("website probe " ++ url))) := by
  constructor
  · intro hdisj owner repo_name rest hpath
    simp [check_compliance, hdisj, hpath, _check_github_repo, probeEnv, finalizeReport,
      resetResults]
  · intro hn
    simp [check_compliance, hn, _check_website_compliance, probeEnv, finalizeReport,
      resetResults]

set_option maxRecDepth 100000 in
/-- Claim C7 witness: the classification theorem applied to a concrete
two-segment GitHub URL. -/
theorem github_host_classification_witness :
    (check_compliance probeEnv initState "https://github.com/x/y"
        ⟨"github.com", "/x/y"⟩).results.error
      = some "Unexpected error: Probe: x/y" := by
  have h := (github_host_classification initState "https://github.com/x/y"
      ⟨"github.com", "/x/y"⟩).1 (by decide) "x" "y" [] (by decide)
  exact h.trans (by decide)

/-- Claim C8: on a generic website target whose page text mentions owasp
(case insensitively) but none of the security keywords, the report has
the single two-rule website category with one passed weight-5 check and
one failed weight-5 check, score 5, and the limited-analysis note. -/
theorem website_owasp_only_report (env : Env) (url : String) (parsed : ParsedUrl)
    (pageText : String)
    (hg : (["github.com", "www.github.com"].contains (pyLower parsed.netloc)) = false)
    (hfetch : env.fetchSite url = .ok pageText)
    (howasp : pyIn "owasp" (pyLower pageText) = true)
    (hsec : (["security", "vulnerability", "privacy"].any
        (fun keyword => pyIn keyword (pyLower pageText))) = false) :
    (check_compliance env initState url parsed).results.categories
      = [("Website Compliance",
          ⟨[⟨"Mentions OWASP", true, 5, 5, "", ""⟩,
            ⟨"Security-focused content", false, 0, 5, "", ""⟩], 5, 10⟩)] ∧
    (check_compliance env initState url parsed).results.score = 5 ∧
    (check_compliance env initState url parsed).results.note
      = some "Limited compliance checks for non-GitHub URLs. Consider providing a GitHub repository URL for comprehensive analysis." := by
  have hn : ¬(pyLower parsed.netloc = "github.com" ∨ pyLower parsed.netloc = "www.github.com") := by
    intro hd
    rw [(contains_github_iff _).mpr hd] at hg
    simp at hg
  refine ⟨?_, ?_, ?_⟩ <;>
    simp [check_compliance, hn, _check_website_compliance, hfetch, website_checks,
      runChecks, _add_check, howasp, hsec, resetResults, finalizeReport, updateCat,
      catAppend, newCheckOf, emptyCat, initState, List.find?]

set_option maxRecDepth 100000 in
/-- Claim C8 witness: the theorem applied to a concrete page whose
extracted text is OWASP. -/
theorem website_owasp_only_report_witness :
    (check_compliance websiteEnv initState webUrl webParsed).results.score = 5 ∧
    (check_compliance websiteEnv initState webUrl webParsed).results.note
      = some "Limited compliance checks for non-GitHub URLs. Consider providing a GitHub repository URL for comprehensive analysis." := by
  have h := website_owasp_only_report websiteEnv webUrl webParsed "OWASP"
    (by decide) rfl (by decide) (by decide)
  exact ⟨h.2.1, h.2.2⟩

/-- Claim C9: a GitHub-host URL whose stripped path has fewer than two
components produces a clean zero report on a fresh checker: no
categories, score 0, percentage 0, and no error. -/
theorem short_github_path_clean_report (env : Env) (url : String) (parsed : ParsedUrl)
    (hg : (["github.com", "www.github.com"].contains (pyLower parsed.netloc)) = true)
    (hshort : (pathParts parsed).length < 2) :
    (check_compliance env initState url parsed).results.categories = [] ∧
    (check_compliance env initState url parsed).results.score = 0 ∧
    (check_compliance env initState url parsed).results.percentage = 0 ∧
    (check_compliance env initState url parsed).results.error = none := by
  have hstep : check_compliance env initState url parsed
      = finalizeReport (resetResults initState url) := by
    have hgor := (contains_github_iff _).mp hg
    cases hpp : pathParts parsed with
    | nil => simp [check_compliance, hgor, hpp]
    | cons a t =>
      cases t with
      | nil => simp [check_compliance, hgor, hpp]
      | cons b t2 =>
        rw [hpp] at hshort
        simp at hshort
        omega
  rw [hstep]
  refine ⟨rfl, rfl, ?_, rfl⟩
  show pyRound2 ((((0 : Nat) : Rat) / (((100 : Nat)) : Rat)) * 100) = 0
  rw [percentage_formula 0]
  norm_num

/-- Claim C9 witness: the clean zero report on a concrete one-segment
GitHub URL. -/
theorem short_github_path_clean_report_witness :
    (check_compliance rateLimitedEnv initState "https://github.com/onlyowner"
        ⟨"github.com", "/onlyowner"⟩).results.categories = [] ∧
    (check_compliance rateLimitedEnv initState "https://github.com/onlyowner"
        ⟨"github.com", "/onlyowner"⟩).results.score = 0 ∧
    (check_compliance rateLimitedEnv initState "https://github.com/onlyowner"
        ⟨"github.com", "/onlyowner"⟩).results.percentage = 0 ∧
    (check_compliance rateLimitedEnv initState "https://github.com/onlyowner"
        ⟨"github.com", "/onlyowner"⟩).results.error = none :=
  short_github_path_clean_report rateLimitedEnv "https://github.com/onlyowner"
    ⟨"github.com", "/onlyowner"⟩ (by decide) (by decide)

set_option maxRecDepth 100000 in
/-- Claim C10: _check_no_secrets returns true on every input, so the
No hardcoded credentials or secrets rule of the code quality category is
always recorded as passed with its full single point. -/
theorem no_secrets_check_always_passes :
    ∀ repo : RepoFacts, _check_no_secrets repo = true ∧
      (code_quality_checks repo).find?
          (fun a => a.name == "No hardcoded credentials or secrets")
        = some ⟨"Code Quality & Best Practices", "No hardcoded credentials or secrets",
            true, 1, "Basic pattern check performed",
            "Remove any hardcoded passwords, API keys, or secrets from your code. Use environment variables or secure vaults. Scan with tools like git-secrets or truffleHog."⟩ := by
  intro repo
  refine ⟨rfl, ?_⟩
  rcases repo with ⟨rm, lic, oi, ua, rc, cp, hw, rcn, rel, tg, ms, col, hd, pat, pw⟩
  cases rcn <;> rfl
